import Mathlib

set_option autoImplicit false
set_option linter.unusedVariables false

namespace Viscribe

/-- Minimal JSON value model: the shapes that `viscribe` request bodies and
error bodies can carry (decoded `dict` values in the Python source). -/
inductive JValue where
  | jnull
  | jbool (b : Bool)
  | jnum (n : Int)
  | jstr (s : String)
  | jarr (elems : List JValue)
  | jobj (entries : List (String × JValue))

/-- Python truthiness of a JSON value (`bool(v)` in CPython): `None`, `False`,
`0`, empty string, empty list and empty dict are falsy. -/
def JValue.pyTruthy : JValue → Bool
  | .jnull => false
  | .jbool b => b
  | .jnum n => n != 0
  | .jstr s => !s.isEmpty
  | .jarr l => !l.isEmpty
  | .jobj l => !l.isEmpty

/-- A decoded JSON object body, as the Python code sees `response.json()`. -/
abbrev JBody := List (String × JValue)

/-- `dict.get k` on a decoded JSON object (first binding wins, as dict keys
are unique in Python). -/
def jLookup (kvs : JBody) (k : String) : Option JValue :=
  match kvs.find? (fun kv => kv.fst == k) with
  | some kv => some kv.snd
  | none => none

/-- Truthiness of an `Optional[str]` field (`if url:` in the Python source):
`None` and the empty string are falsy. -/
def optStrTruthy : Option String → Bool
  | none => false
  | some s => !s.isEmpty

/-- Validation failure causes raised by the validators in
`viscribe/models/image.py` and `viscribe/utils/helpers.py` (each constructor
stands for one distinct `ValueError` message in the source). -/
inductive VErr where
  | noSource
  | bothSources
  | invalidImageUrl
  | invalidImageBase64
  | badUrlSchemeNetloc
  | badUrlScheme
  | badFieldType
  | tooManyFields
  | noFieldsOrSchema
  | bothFieldsAndSchema
  | badAdvancedSchema
  | ratingOutOfRange
  | badRequestId
  deriving DecidableEq

/-- Characters admitted in a URL scheme by CPython `urllib.parse`
(`scheme_chars` = letters, digits, `+`, `-`, `.`). -/
def schemeChar (c : Char) : Bool :=
  c.isAlpha || c.isDigit || c == '+' || c == '-' || c == '.'

/-- The two components of a parsed URL that `validate_url_format` inspects. -/
structure UrlParts where
  scheme : String
  netloc : String

/-- Modelled from CPython `urllib.parse.urlparse` (the `scheme` / `netloc`
components used by `viscribe.utils.helpers.validate_url_format`): the scheme
is the lowercased text before the first `:` when it starts with a letter and
consists of scheme characters; the netloc is the text after a leading `//` up
to the next `/`, `?` or `#`.  Control-character stripping that CPython applies
to exotic inputs is not modelled. -/
def pyUrlparse (url : String) : UrlParts :=
  let cs := url.data
  let p :=
    match cs.findIdx? (fun c => c == ':') with
    | some i =>
      let pre := cs.take i
      let post := cs.drop (i + 1)
      if 0 < i ∧ (cs.headD ' ').isAlpha ∧ pre.all schemeChar then
        (String.mk (pre.map Char.toLower), post)
      else
        (String.mk [], cs)
    | none => (String.mk [], cs)
  let netloc :=
    match p.snd with
    | '/' :: '/' :: r =>
      String.mk (r.takeWhile (fun c => !(c == '/' || c == '?' || c == '#')))
    | _ => String.mk []
  { scheme := p.fst, netloc := netloc }

/-- `viscribe.utils.helpers.validate_url_format` (src lines 47 to 59):
require truthy scheme and netloc, then scheme http or https. -/
def validateUrlFormat (url : String) : Except VErr Unit :=
  let r := pyUrlparse url
  if !(!r.scheme.isEmpty && !r.netloc.isEmpty) then .error .badUrlSchemeNetloc
  else if !(r.scheme == ("http") || r.scheme == ("https")) then .error .badUrlScheme
  else .ok ()

/-- Characters of the standard base64 alphabet. -/
def b64Char (c : Char) : Bool :=
  c.isAlpha || c.isDigit || c == '+' || c == '/'

/-- Modelled from CPython `base64.b64decode(s, validate=True)`: the input must
be alphabet characters followed by at most two `=` pads, with total length a
multiple of four; on success the decoded byte count is returned. -/
def b64DecodedLen (s : String) : Option Nat :=
  let cs := s.data
  let pad := (cs.reverse.takeWhile (fun c => c == '=')).length
  let body := cs.take (cs.length - pad)
  if pad ≤ 2 && body.all b64Char && cs.length % 4 == 0 then
    some (3 * (cs.length / 4) - pad)
  else none

/-- The data-URL stripping step of `validate_base64_image`: when the string
starts with `data:image/`, keep what follows the first comma (if any). -/
def b64DataPart (b : String) : String :=
  if b.startsWith ("data:image/") then
    match b.splitOn (",") with
    | [] => b
    | [_] => b
    | _ :: rest => String.intercalate (",") rest
  else b

/-- `viscribe.utils.helpers.validate_base64_image` (src lines 62 to 80):
strip an optional data-URL header, decode, and reject an empty decode.  The
decode failure and the empty-decode failure both surface as `ValueError`. -/
def validateBase64Image (b : String) : Except VErr Unit :=
  match b64DecodedLen (b64DataPart b) with
  | none => .error .invalidImageBase64
  | some 0 => .error .invalidImageBase64
  | some (_ + 1) => .ok ()

/-- `ImageSourceBase.check_image_source` (src/viscribe/models/image.py lines
18 to 44): exactly one truthy source, then format-validate the one given. -/
def checkImageSource (url b64 : Option String) : Except VErr Unit :=
  if !optStrTruthy url && !optStrTruthy b64 then .error .noSource
  else if optStrTruthy url && optStrTruthy b64 then .error .bothSources
  else
    match (if optStrTruthy url
           then (validateUrlFormat (url.getD (""))).mapError (fun _ => VErr.invalidImageUrl)
           else .ok ()) with
    | .error e => .error e
    | .ok _ =>
      if optStrTruthy b64
      then (validateBase64Image (b64.getD (""))).mapError (fun _ => VErr.invalidImageBase64)
      else .ok ()

/-- Validation performed when constructing `ImageDescribeRequest`: only the
inherited image-source check constrains the inputs. -/
def mkImageDescribeRequest (url b64 instruction : Option String) (generateTags : Bool) : Except VErr Unit :=
  checkImageSource url b64

/-- Validation performed when constructing `ImageClassifyRequest`: only the
inherited image-source check constrains the inputs. -/
def mkImageClassifyRequest (url b64 : Option String) (classes : Option (List String))
    (classDescriptions : Option (List (String × String))) (instruction : Option String)
    (multiLabel : Bool) : Except VErr Unit :=
  checkImageSource url b64

/-- Validation performed when constructing `ImageAskRequest`: the question is
a plain required string, so only the image-source check constrains it. -/
def mkImageAskRequest (url b64 : Option String) (question : String) : Except VErr Unit :=
  checkImageSource url b64

/-- `ExtractField` of `viscribe/models/image.py` (name, type, optional
description). -/
structure ExtractField where
  name : String
  type : String
  description : Option String

/-- The closed set of extract field types accepted by
`ExtractField.validate_type` (src lines 70 to 76). -/
def extractFieldTypes : List String :=
  [("text"), ("number"), ("array_text"), ("array_number")]

/-- `ExtractField.validate_type`: the type must belong to the closed set. -/
def validateFieldType (t : String) : Except VErr Unit :=
  if extractFieldTypes.contains t then .ok () else .error .badFieldType

/-- Per-entry validation of a field list, as pydantic coerces each entry
through `ExtractField` (first failure wins). -/
def validateFields : List ExtractField → Except VErr Unit
  | [] => .ok ()
  | f :: fs =>
    match validateFieldType f.type with
    | .error e => .error e
    | .ok _ => validateFields fs

/-- Truthiness of the `fields` value (`if self.fields:`): `None` and the
empty list are falsy. -/
def optFieldsTruthy : Option (List ExtractField) → Bool
  | none => false
  | some l => !l.isEmpty

/-- Truthiness of the `advanced_schema` dict value: `None` and the empty
dict are falsy. -/
def optJObjTruthy : Option JBody → Bool
  | none => false
  | some l => !l.isEmpty

/-- Python `data.get(k) == some-string`: true only when the key is present
and bound to exactly that string. -/
def jIsStrEq : Option JValue → String → Bool
  | some (.jstr s), t => s == t
  | _, _ => false

/-- Truthiness of a `dict.get` result (`not d.get(k)` in the source). -/
def optJTruthy : Option JValue → Bool
  | none => false
  | some v => v.pyTruthy

/-- `ImageExtractRequest.check_schema_or_fields` (src lines 94 to 112):
exactly one of the two truthy, and a truthy schema must carry
`type = object` and truthy `properties`. -/
def checkSchemaOrFields (fields : Option (List ExtractField)) (schema : Option JBody) : Except VErr Unit :=
  if !optFieldsTruthy fields && !optJObjTruthy schema then .error .noFieldsOrSchema
  else if optFieldsTruthy fields && optJObjTruthy schema then .error .bothFieldsAndSchema
  else if optJObjTruthy schema then
    if !(jIsStrEq (jLookup (schema.getD []) ("type")) ("object"))
        || !(optJTruthy (jLookup (schema.getD []) ("properties"))) then
      .error .badAdvancedSchema
    else .ok ()
  else .ok ()

/-- The field-coercion stage of `ImageExtractRequest` validation: per-entry
type validation and the `max_length=10` bound on `fields` (absent fields
pass). -/
def checkFieldsStage : Option (List ExtractField) → Except VErr Unit
  | none => .ok ()
  | some l =>
    match validateFields l with
    | .error e => .error e
    | .ok _ => if 10 < l.length then .error .tooManyFields else .ok ()

/-- Full validation pipeline of `ImageExtractRequest` in pydantic order: the
before-validator `check_image_source`, then field coercion (per-entry type
check and the `max_length=10` bound on `fields`), then the after-validator
`check_schema_or_fields`. -/
def mkImageExtractRequest (url b64 : Option String) (fields : Option (List ExtractField))
    (schema : Option JBody) (instruction : Option String) : Except VErr Unit :=
  match checkImageSource url b64 with
  | .error e => .error e
  | .ok _ =>
    match checkFieldsStage fields with
    | .error e => .error e
    | .ok _ => checkSchemaOrFields fields schema

/-- `ImageCompareRequest` of `viscribe/models/image.py` (src lines 144 to
151): five optional fields and no validator of any kind. -/
structure ImageCompareRequest where
  image1_url : Option String
  image1_base64 : Option String
  image2_url : Option String
  image2_base64 : Option String
  instruction : Option String

/-- The default `instruction` of `ImageCompareRequest`. -/
def defaultCompareInstruction : String :=
  "Describe the similarities and differences between these two images."

/-- Constructing an `ImageCompareRequest`: the class declares no
`model_validator` and no field constraints beyond the optional types, so
construction always succeeds with the given values. -/
def mkImageCompareRequest (i1u i1b i2u i2b instruction : Option String) : Except VErr ImageCompareRequest :=
  .ok { image1_url := i1u, image1_base64 := i1b, image2_url := i2u,
        image2_base64 := i2b, instruction := instruction }

/-- Hex digits accepted by `int(hex, 16)` for the 32 UUID digits. -/
def hexChar (c : Char) : Bool :=
  c.isDigit || (('a' ≤ c) && (c ≤ 'f')) || (('A' ≤ c) && (c ≤ 'F'))

/-- A curly-brace character, written by code point to keep braces out of
string literals. -/
def braceChar (c : Char) : Bool :=
  c == Char.ofNat 123 || c == Char.ofNat 125

/-- Python `s.strip` over the two brace characters: drop them from both
ends. -/
def stripBraceEnds (s : String) : String :=
  String.mk (((s.data.dropWhile braceChar).reverse.dropWhile braceChar).reverse)

/-- Modelled from CPython `uuid.UUID(hex=s)` string parsing: remove `urn:`
and `uuid:`, strip surrounding braces, remove hyphens, then require exactly
32 hex digits. -/
def pyUUIDvalid (s : String) : Bool :=
  let h := (s.replace ("urn:") ("")).replace ("uuid:") ("")
  let h := stripBraceEnds h
  let h := h.replace ("-") ("")
  h.length == 32 && h.data.all hexChar

/-- `FeedbackRequest` of `viscribe/models/image.py` (src lines 168 to 181). -/
structure FeedbackRequest where
  request_id : String
  rating : Int
  feedback_text : Option String

/-- Validation pipeline of `FeedbackRequest`: the `ge=1, le=5` bound on
`rating`, then the after-validator `validate_request_id` requiring a UUID. -/
def mkFeedbackRequest (requestId : String) (rating : Int) (feedbackText : Option String) : Except VErr FeedbackRequest :=
  if rating < 1 ∨ 5 < rating then .error .ratingOutOfRange
  else if !pyUUIDvalid requestId then .error .badRequestId
  else .ok { request_id := requestId, rating := rating, feedback_text := feedbackText }

/-- The class names defined at top level in `viscribe/models/image.py`. -/
def imageModuleNames : List String :=
  [("ImageSourceBase"), ("ImageDescribeRequest"), ("ImageDescribeResponse"),
   ("ExtractField"), ("ImageExtractRequest"), ("ImageExtractResponse"),
   ("ImageClassifyRequest"), ("ImageClassifyResponse"),
   ("ImageAskRequest"), ("ImageAskResponse"),
   ("ImageCompareRequest"), ("ImageCompareResponse"),
   ("CreditsResponse"), ("FeedbackRequest"), ("FeedbackResponse")]

/-- The names `viscribe/client.py` line 11 imports from
`viscribe.models.image`. -/
def clientImageImportNames : List String :=
  [("CreditsResponse"), ("FeedbackCreate"), ("FeedbackResponse")]

/-- Whether the import statement of the blocking client module resolves:
every imported name must be defined in the imported module. -/
def clientImportOk : Bool :=
  clientImageImportNames.all (fun n => imageModuleNames.contains n)

/-- Outcome presented by the network on one attempt: either a decoded HTTP
response (status and JSON body) or a transport-level failure with no status
(connection reset, timeout, DNS failure). -/
inductive NetOutcome where
  | resp (status : Nat) (body : JBody)
  | netFail

/-- What the blocking transport stack returns to `Client._make_request`:
either the final response, or exhaustion of the adapter-level retries
(`MaxRetryError`, surfaced by `requests` with no response attached). -/
inductive TransportOut where
  | resp (status : Nat) (body : JBody)
  | maxRetryFail

/-- HTTP methods used by the SDK: GET for credits, POST for everything
else. -/
inductive Method where
  | get
  | post

/-- Modelled from urllib3 `Retry`: status-triggered retries only apply to
methods in `DEFAULT_ALLOWED_METHODS` (HEAD, GET, PUT, DELETE, OPTIONS,
TRACE); POST is not among them. -/
def methodRetryable : Method → Bool
  | .get => true
  | .post => false

/-- The `status_forcelist` configured in `Client.__init__` (src
`viscribe/client.py` lines 90 to 99). -/
def statusForcelist : List Nat := [500, 502, 503, 504]

/-- Modelled from urllib3 `Retry.get_backoff_time`: zero before the first
retry, then `backoff_factor * 2 ^ (consecutive - 1)` capped at
`BACKOFF_MAX = 120`. -/
def backoffTime (b : ℚ) (consecutive : Nat) : ℚ :=
  if consecutive ≤ 1 then 0 else min 120 (b * ((2 : ℚ) ^ (consecutive - 1)))

/-- Modelled from urllib3 `Retry` as configured by `Client.__init__`
(`total = max_retries`, `backoff_factor = retry_delay`,
`status_forcelist = [500, 502, 503, 504]`): each transport failure, and
each forcelist status on a retryable method, consumes one retry and sleeps
the backoff; when the retries are exhausted the next such failure raises
`MaxRetryError`.  The first argument counts remaining retries, the second
the attempts already made; the result carries the transport outcome, the
total number of attempts, and the sleep schedule. -/
def urllib3Go (b : ℚ) (m : Method) (env : Nat → NetOutcome) : Nat → Nat → TransportOut × Nat × List ℚ
  | 0, idx =>
    match env idx with
    | .resp st body =>
      if statusForcelist.contains st && methodRetryable m then (.maxRetryFail, idx + 1, [])
      else (.resp st body, idx + 1, [])
    | .netFail => (.maxRetryFail, idx + 1, [])
  | r + 1, idx =>
    match env idx with
    | .resp st body =>
      if statusForcelist.contains st && methodRetryable m then
        let out := urllib3Go b m env r (idx + 1)
        (out.1, out.2.1, backoffTime b (idx + 1) :: out.2.2)
      else (.resp st body, idx + 1, [])
    | .netFail =>
      let out := urllib3Go b m env r (idx + 1)
      (out.1, out.2.1, backoffTime b (idx + 1) :: out.2.2)

/-- Domain-level result of a dispatch, per the error taxonomy:
`APIError(message, status_code)` and `ConnectionError` come from the code;
`closedResource` is modelled from the spec (a `ClosedResourceError` listed
in its error taxonomy), included so the lifecycle claims can be stated; no
code of the repository produces it. -/
inductive DResult where
  | success (body : JBody)
  | apiError (msg : JValue) (status : Option Nat)
  | connError
  | closedResource

/-- `data.get("error", "Unknown error occurred")` of
`handle_sync_response` and `handle_async_response`. -/
def errMsgOf (body : JBody) : JValue :=
  (jLookup body ("error")).getD (.jstr ("Unknown error occurred"))

/-- `handle_sync_response` (helpers lines 27 to 34) composed with the
exception classification of `Client._make_request` (client lines 107 to
139): a surfaced response with status at least 400 raises
`APIError(body error, status)`; transport exhaustion surfaces with no
response attached, so the `RequestException` branch falls through to
`ConnectionError`. -/
def syncClassify : TransportOut → DResult
  | .resp st body => if 400 ≤ st then .apiError (errMsgOf body) (some st) else .success body
  | .maxRetryFail => .connError

/-- The blocking dispatcher `Client._make_request`: one call into the
session, whose adapter performs the urllib3 retries, then response
classification.  Returns the result, the number of attempts made on the
wire, and the sleep schedule. -/
def syncMakeRequest (maxRetries : Nat) (b : ℚ) (m : Method) (env : Nat → NetOutcome) : DResult × Nat × List ℚ :=
  let out := urllib3Go b m env maxRetries 0
  (syncClassify out.1, out.2.1, out.2.2)

/-- The non-blocking dispatcher `AsyncClient._make_request` (src
`viscribe/async_client.py` lines 107 to 143): a `for attempt in
range(max_retries)` loop; a surfaced response with status at least 400
raises `APIError` out of the loop (never retried); a status-less
`ClientError` on the last attempt raises `ConnectionError`, otherwise the
loop sleeps `retry_delay * (attempt + 1)` and retries.  A zero
`max_retries` falls off the loop and returns `None`.  The first argument
counts remaining attempts, the second the attempts already made. -/
def asyncGo (b : ℚ) (env : Nat → NetOutcome) : Nat → Nat → Option DResult × Nat × List ℚ
  | 0, idx => (none, idx, [])
  | r + 1, idx =>
    match env idx with
    | .resp st body =>
      if 400 ≤ st then (some (.apiError (errMsgOf body) (some st)), idx + 1, [])
      else (some (.success body), idx + 1, [])
    | .netFail =>
      match r with
      | 0 => (some .connError, idx + 1, [])
      | _ + 1 =>
        let out := asyncGo b env r (idx + 1)
        (out.1, out.2.1, (b * ((idx : ℚ) + 1)) :: out.2.2)

/-- The non-blocking dispatcher, started at attempt zero. -/
def asyncMakeRequest (maxRetries : Nat) (b : ℚ) (env : Nat → NetOutcome) : Option DResult × Nat × List ℚ :=
  asyncGo b env maxRetries 0

/-- A persistent transport-level failure: every attempt fails with no
status code. -/
def envFail : Nat → NetOutcome := fun _ => .netFail

/-- The configuration and session state of a blocking `Client`: retry
parameters fixed at construction, plus whether `session.close()` has been
called. -/
structure SyncClient where
  maxRetries : Nat
  retryDelay : ℚ
  sessionClosed : Bool

/-- `Client.close` (src lines 272 to 276): it calls `session.close()` and
nothing else; no flag of the client guards later calls. -/
def closeClient (c : SyncClient) : SyncClient :=
  { c with sessionClosed := true }

/-- An operation dispatched on a blocking client: `_make_request` consults
only the retry configuration and hands the call to the session, which
(`requests.Session`) serves requests after `close()` by recreating its
pooled connections; no code path reads `sessionClosed`. -/
def clientRequest (c : SyncClient) (m : Method) (env : Nat → NetOutcome) : DResult × Nat × List ℚ :=
  syncMakeRequest c.maxRetries c.retryDelay m env

/-- The blocking facade `Client.extract_image` (src lines 178 to 199): it
accepts `output_schema` but constructs `ImageExtractRequest` without a
`fields` or `advanced_schema` argument (`output_schema` is not a model
field and pydantic ignores unknown keyword arguments), so the request is
validated with both unset. -/
def syncExtractImage (url b64 : Option String) (outputSchema : Option JBody) (instruction : Option String) : Except VErr Unit :=
  mkImageExtractRequest url b64 none none instruction

/-- The non-blocking facade `AsyncClient.extract_image` (src lines 195 to
246): fields and advanced schema are passed through to
`ImageExtractRequest` validation. -/
def asyncExtractImage (url b64 : Option String) (fields : Option (List ExtractField))
    (schema : Option JBody) (instruction : Option String) : Except VErr Unit :=
  mkImageExtractRequest url b64 fields schema instruction

/-- Whether the non-blocking facade reaches `_make_request`: the dispatch
call sits after request construction, so it happens exactly when
validation succeeds. -/
def asyncExtractDispatches (url b64 : Option String) (fields : Option (List ExtractField))
    (schema : Option JBody) (instruction : Option String) : Bool :=
  (asyncExtractImage url b64 fields schema instruction).isOk

/-- The spec-side linear wait schedule `retry_delay * attempt_index`
between `n` attempts. -/
def linearWaits (b : ℚ) (n : Nat) : List ℚ :=
  (List.range (n - 1)).map (fun (k : Nat) => b * ((k : ℚ) + 1))

/-- The exponential wait schedule of the blocking adapter: zero before the
first retry, then `retry_delay * 2 ^ k` capped at 120. -/
def expoWaits (b : ℚ) (n : Nat) : List ℚ :=
  (List.range n).map (fun k => if k = 0 then 0 else min 120 (b * ((2 : ℚ) ^ k)))

/-- The URL well-formedness the spec describes: parsing yields scheme http
or https and a non-empty network location (host part). -/
def urlWellFormed (u : String) : Bool :=
  ((pyUrlparse u).scheme == ("http") || (pyUrlparse u).scheme == ("https"))
    && !(pyUrlparse u).netloc.isEmpty

/-- The base64 well-formedness the spec describes: after stripping an
optional data-URL header, the string decodes to at least one byte. -/
def base64WellFormed (s : String) : Bool :=
  match b64DecodedLen (b64DataPart s) with
  | some n => decide (1 ≤ n)
  | none => false

theorem validateUrlFormat_ok_iff (u : String) :
    validateUrlFormat u = .ok () ↔ urlWellFormed u = true := by
  have e1 : (("http" : String).isEmpty) = false := by decide
  have e2 : (("https" : String).isEmpty) = false := by decide
  by_cases h1 : (pyUrlparse u).scheme = "http" <;>
    by_cases h2 : (pyUrlparse u).scheme = "https" <;>
      cases h3 : (pyUrlparse u).netloc.isEmpty <;>
        cases h4 : (pyUrlparse u).scheme.isEmpty <;>
          simp_all [validateUrlFormat, urlWellFormed]

theorem validateBase64Image_ok_iff (s : String) :
    validateBase64Image s = .ok () ↔ base64WellFormed s = true := by
  unfold validateBase64Image base64WellFormed
  generalize b64DecodedLen (b64DataPart s) = o
  rcases o with _ | n
  · simp
  · cases n <;> simp

theorem checkImageSource_ok_iff (url b64 : Option String) :
    checkImageSource url b64 = .ok () ↔
      ((optStrTruthy url = true ∧ optStrTruthy b64 = false ∧ urlWellFormed (url.getD ("")) = true)
       ∨ (optStrTruthy url = false ∧ optStrTruthy b64 = true ∧ base64WellFormed (b64.getD ("")) = true)) := by
  cases hu : optStrTruthy url <;> cases hb : optStrTruthy b64
  · simp [checkImageSource, hu, hb]
  · rw [← validateBase64Image_ok_iff]
    cases hv : validateBase64Image (b64.getD ("")) <;>
      simp [checkImageSource, hu, hb, hv, Except.mapError]
  · rw [← validateUrlFormat_ok_iff]
    cases hv : validateUrlFormat (url.getD ("")) <;>
      simp [checkImageSource, hu, hb, hv, Except.mapError]
  · simp [checkImageSource, hu, hb]

theorem urllib3Go_envFail (b : ℚ) (m : Method) : ∀ (r idx : Nat),
    urllib3Go b m envFail r idx =
      (.maxRetryFail, idx + r + 1, (List.range r).map (fun k => backoffTime b (idx + k + 1)))
  | 0, idx => by simp [urllib3Go, envFail]
  | r + 1, idx => by
    have ih := urllib3Go_envFail b m r (idx + 1)
    have step : urllib3Go b m envFail (r + 1) idx =
        ((urllib3Go b m envFail r (idx + 1)).1, (urllib3Go b m envFail r (idx + 1)).2.1,
          backoffTime b (idx + 1) :: (urllib3Go b m envFail r (idx + 1)).2.2) := rfl
    rw [step, ih]
    simp only [Prod.mk.injEq]
    refine ⟨trivial, by omega, ?_⟩
    rw [List.range_succ_eq_map, List.map_cons, List.map_map]
    refine List.cons_eq_cons.mpr ⟨by norm_num, ?_⟩
    apply List.map_congr_left
    intro a ha
    simp only [Function.comp_apply]
    congr 1
    omega

theorem asyncGo_envFail (b : ℚ) : ∀ (r idx : Nat),
    asyncGo b envFail (r + 1) idx =
      (some .connError, idx + r + 1,
        (List.range r).map (fun k => b * (((idx + k : Nat) : ℚ) + 1)))
  | 0, idx => by simp [asyncGo, envFail]
  | r + 1, idx => by
    have ih := asyncGo_envFail b r (idx + 1)
    have step : asyncGo b envFail (r + 1 + 1) idx =
        ((asyncGo b envFail (r + 1) (idx + 1)).1, (asyncGo b envFail (r + 1) (idx + 1)).2.1,
          b * ((idx : ℚ) + 1) :: (asyncGo b envFail (r + 1) (idx + 1)).2.2) := rfl
    rw [step, ih]
    simp only [Prod.mk.injEq]
    refine ⟨trivial, by omega, ?_⟩
    rw [List.range_succ_eq_map, List.map_cons, List.map_map]
    refine List.cons_eq_cons.mpr ⟨by norm_num, ?_⟩
    apply List.map_congr_left
    intro a ha
    simp only [Function.comp_apply]
    congr 2
    push_cast
    ring

theorem syncMakeRequest_envFail (R : Nat) (b : ℚ) (m : Method) :
    syncMakeRequest R b m envFail = (.connError, R + 1, expoWaits b R) := by
  rw [show syncMakeRequest R b m envFail =
      (syncClassify (urllib3Go b m envFail R 0).1, (urllib3Go b m envFail R 0).2.1,
        (urllib3Go b m envFail R 0).2.2) from rfl, urllib3Go_envFail]
  simp only [syncClassify, Prod.mk.injEq, expoWaits]
  refine ⟨trivial, by omega, ?_⟩
  apply List.map_congr_left
  intro k hk
  rcases k with _ | k
  · simp [backoffTime]
  · have h2 : ¬(k + 1 + 1 ≤ 1) := by omega
    simp [backoffTime, h2]

theorem asyncMakeRequest_envFail (R : Nat) (b : ℚ) (h : 1 ≤ R) :
    asyncMakeRequest R b envFail = (some .connError, R, linearWaits b R) := by
  obtain ⟨r, rfl⟩ : ∃ r, R = r + 1 := ⟨R - 1, by omega⟩
  rw [show asyncMakeRequest (r + 1) b envFail = asyncGo b envFail (r + 1) 0 from rfl,
    asyncGo_envFail]
  simp only [Prod.mk.injEq]
  refine ⟨trivial, by omega, ?_⟩
  unfold linearWaits
  rw [Nat.add_sub_cancel]
  apply List.map_congr_left
  intro a ha
  have h0 : 0 + a = a := by omega
  rw [h0]

theorem checkSchemaOrFields_ok_iff (fields : Option (List ExtractField)) (schema : Option JBody) :
    checkSchemaOrFields fields schema = .ok () ↔
      ((optFieldsTruthy fields != optJObjTruthy schema) = true
       ∧ (optJObjTruthy schema = true →
            jIsStrEq (jLookup (schema.getD []) ("type")) ("object") = true
            ∧ optJTruthy (jLookup (schema.getD []) ("properties")) = true)) := by
  cases hf : optFieldsTruthy fields <;> cases hs : optJObjTruthy schema
  · simp [checkSchemaOrFields, hf, hs]
  · cases ht : jIsStrEq (jLookup (schema.getD []) ("type")) ("object") <;>
      cases hp : optJTruthy (jLookup (schema.getD []) ("properties")) <;>
        simp [checkSchemaOrFields, hf, hs, ht, hp]
  · simp [checkSchemaOrFields, hf, hs]
  · simp [checkSchemaOrFields, hf, hs]

theorem checkFieldsStage_ok_iff (fields : Option (List ExtractField)) :
    checkFieldsStage fields = .ok () ↔
      (∀ l, fields = some l → (validateFields l).isOk = true ∧ l.length ≤ 10) := by
  rcases fields with _ | l
  · simp [checkFieldsStage]
  · cases hvf : validateFields l with
    | error e =>
      simp [checkFieldsStage, hvf, Except.isOk, Except.toBool]
    | ok u =>
      cases u
      by_cases hlen : 10 < l.length
      · simp [checkFieldsStage, hvf, hlen, Except.isOk, Except.toBool]
      · simp [checkFieldsStage, hvf, hlen, Except.isOk, Except.toBool]
        omega

theorem exceptUnit_isOk_iff (x : Except VErr Unit) : x.isOk = true ↔ x = .ok () := by
  cases x with
  | error e => simp [Except.isOk, Except.toBool]
  | ok u => cases u; simp [Except.isOk, Except.toBool]

theorem expoWaits_one_three : expoWaits 1 3 = [0, 2, 4] := by
  simp only [expoWaits, List.range_succ, List.range_zero, List.map_append, List.map_cons,
    List.map_nil, List.nil_append, List.cons_append]
  norm_num

theorem linearWaits_one_three : linearWaits 1 3 = [1, 2] := by
  simp only [linearWaits, List.range_succ, List.range_zero, List.map_append, List.map_cons,
    List.map_nil, List.nil_append, List.cons_append]
  norm_num

/-- A JSON error body with the given message under the `error` key. -/
def errBody (msg : String) : JBody := [(("error"), JValue.jstr msg)]

/-- The image URL of the extract scenario. -/
def scenarioUrl : String := "https://img.com/prod.jpg"

/-- The advanced schema of the extract scenario. -/
def scenarioSchema : JBody :=
  [(("type"), JValue.jstr ("object")),
   (("properties"), JValue.jobj [(("product_name"), JValue.jobj [(("type"), JValue.jstr ("string"))])])]

/-- A simple valid field list for the extract scenario. -/
def scenarioFields : List ExtractField :=
  [{ name := ("product_name"), type := ("text"), description := none }]

/-- The mocked credits body used for the lifecycle counterexample. -/
def creditsOkBody : JBody :=
  [(("remaining_credits"), JValue.jnum 100), (("total_credits_used"), JValue.jnum 50)]

/-- C1: claimed behavioural identity of the two dispatchers.  Corrected: on a
persistent transport failure, the blocking dispatcher (urllib3 adapter with
`total = max_retries`, `backoff_factor = retry_delay`) makes `max_retries + 1`
attempts with the exponential schedule, while the non-blocking dispatcher
makes exactly `max_retries` attempts with the linear schedule; both classify
the exhausted failure as a `ConnectionError`, but attempt counts and waits
differ. -/
theorem C1_dispatch_variants_differ (R : Nat) (b : ℚ) (h : 1 ≤ R) :
    syncMakeRequest R b .post envFail = (.connError, R + 1, expoWaits b R)
    ∧ asyncMakeRequest R b envFail = (some .connError, R, linearWaits b R)
    ∧ (syncMakeRequest R b .post envFail).2.1 ≠ (asyncMakeRequest R b envFail).2.1 := by
  refine ⟨syncMakeRequest_envFail R b .post, asyncMakeRequest_envFail R b h, ?_⟩
  rw [syncMakeRequest_envFail, asyncMakeRequest_envFail R b h]
  simp

theorem C1_dispatch_variants_differ_witness :
    (1 : Nat) ≤ 3
    ∧ (syncMakeRequest 3 1 .post envFail = (.connError, 3 + 1, expoWaits 1 3)
       ∧ asyncMakeRequest 3 1 envFail = (some .connError, 3, linearWaits 1 3)
       ∧ (syncMakeRequest 3 1 .post envFail).2.1 ≠ (asyncMakeRequest 3 1 envFail).2.1) :=
  ⟨by decide, C1_dispatch_variants_differ 3 1 (by decide)⟩

/-- C1 counterexample: with `max_retries = 3`, `retry_delay = 1` and a
persistent transport failure, the blocking dispatcher makes 4 attempts with
waits 0, 2, 4 while the non-blocking one makes 3 attempts with waits 1, 2:
the dispatchers are not behaviourally identical. -/
theorem C1_dispatch_equivalence_cex :
    (syncMakeRequest 3 1 .post envFail).2.1 = 4
    ∧ (asyncMakeRequest 3 1 envFail).2.1 = 3
    ∧ (syncMakeRequest 3 1 .post envFail).2.2 = [0, 2, 4]
    ∧ (asyncMakeRequest 3 1 envFail).2.2 = [1, 2]
    ∧ (syncMakeRequest 3 1 .post envFail).2.1 ≠ (asyncMakeRequest 3 1 envFail).2.1 := by
  rw [syncMakeRequest_envFail, asyncMakeRequest_envFail 3 1 (by norm_num)]
  exact ⟨rfl, rfl, expoWaits_one_three, linearWaits_one_three, by norm_num⟩

/-- C2: the non-blocking dispatcher makes exactly `max_retries` attempts on a
persistent transport failure, waits `retry_delay * attempt_index` between
consecutive attempts, and ends with a `ConnectionError`; the blocking
dispatcher instead makes `max_retries + 1` attempts with the urllib3
exponential schedule. -/
theorem C2_async_linear_retry (R : Nat) (b : ℚ) (h : 1 ≤ R) :
    asyncMakeRequest R b envFail = (some .connError, R, linearWaits b R)
    ∧ syncMakeRequest R b .post envFail = (.connError, R + 1, expoWaits b R) :=
  ⟨asyncMakeRequest_envFail R b h, syncMakeRequest_envFail R b .post⟩

theorem C2_async_linear_retry_witness :
    (1 : Nat) ≤ 3
    ∧ (asyncMakeRequest 3 1 envFail = (some .connError, 3, linearWaits 1 3)
       ∧ syncMakeRequest 3 1 .post envFail = (.connError, 3 + 1, expoWaits 1 3)) :=
  ⟨by decide, C2_async_linear_retry 3 1 (by decide)⟩

/-- C2 counterexample: the blocking dispatcher on a persistent transport
failure with `max_retries = 3`, `retry_delay = 1` yields a `ConnectionError`
after 4 attempts, not 3, and its waits are not the linear 1, 2. -/
theorem C2_sync_schedule_cex :
    (syncMakeRequest 3 1 .post envFail).1 = DResult.connError
    ∧ (syncMakeRequest 3 1 .post envFail).2.1 = 4
    ∧ (syncMakeRequest 3 1 .post envFail).2.1 ≠ 3
    ∧ (syncMakeRequest 3 1 .post envFail).2.2 ≠ [1, 2] := by
  rw [syncMakeRequest_envFail]
  refine ⟨rfl, rfl, by norm_num, ?_⟩
  rw [expoWaits_one_three]
  intro h
  simp at h

/-- C3: a response with status at least 400 and a JSON body yields exactly
one attempt and an `APIError` carrying the message of the body error field
and the status code — in the non-blocking dispatcher always, and in the
blocking dispatcher whenever the status is outside the adapter forcelist or
the method is POST. -/
theorem C3_api_error_single_attempt (R : Nat) (b : ℚ) (m : Method) (st : Nat) (body : JBody)
    (hR : 1 ≤ R) (hst : 400 ≤ st)
    (hm : statusForcelist.contains st = false ∨ m = Method.post) :
    asyncMakeRequest R b (fun _ => .resp st body) = (some (.apiError (errMsgOf body) (some st)), 1, [])
    ∧ syncMakeRequest R b m (fun _ => .resp st body) = (.apiError (errMsgOf body) (some st), 1, []) := by
  obtain ⟨r, rfl⟩ : ∃ r, R = r + 1 := ⟨R - 1, by omega⟩
  have hcond : (statusForcelist.contains st && methodRetryable m) = false := by
    rcases hm with hm | hm
    · rw [hm, Bool.false_and]
    · subst hm
      rw [show methodRetryable Method.post = false from rfl, Bool.and_false]
  constructor
  · have step : asyncMakeRequest (r + 1) b (fun _ => .resp st body) =
        (if 400 ≤ st then (some (.apiError (errMsgOf body) (some st)), 1, ([] : List ℚ))
         else (some (.success body), 1, [])) := rfl
    rw [step, if_pos hst]
  · have step : urllib3Go b m (fun _ => .resp st body) (r + 1) 0 =
        (if statusForcelist.contains st && methodRetryable m then
          ((urllib3Go b m (fun _ => .resp st body) r 1).1,
           (urllib3Go b m (fun _ => .resp st body) r 1).2.1,
           backoffTime b 1 :: (urllib3Go b m (fun _ => .resp st body) r 1).2.2)
         else (.resp st body, 1, [])) := rfl
    have e : syncMakeRequest (r + 1) b m (fun _ => .resp st body) =
        (syncClassify (urllib3Go b m (fun _ => .resp st body) (r + 1) 0).1,
         (urllib3Go b m (fun _ => .resp st body) (r + 1) 0).2.1,
         (urllib3Go b m (fun _ => .resp st body) (r + 1) 0).2.2) := rfl
    rw [e, step, hcond]
    simp [syncClassify, hst]

theorem C3_api_error_single_attempt_witness :
    (1 : Nat) ≤ 3 ∧ (400 : Nat) ≤ 404
    ∧ (statusForcelist.contains 404 = false ∨ Method.post = Method.post)
    ∧ (asyncMakeRequest 3 1 (fun _ => .resp 404 (errBody ("Bad request"))) =
        (some (.apiError (errMsgOf (errBody ("Bad request"))) (some 404)), 1, [])
       ∧ syncMakeRequest 3 1 .post (fun _ => .resp 404 (errBody ("Bad request"))) =
        (.apiError (errMsgOf (errBody ("Bad request"))) (some 404), 1, [])) :=
  ⟨by decide, by decide, Or.inr rfl,
    C3_api_error_single_attempt 3 1 .post 404 (errBody ("Bad request")) (by decide) (by decide) (Or.inr rfl)⟩

/-- C3 counterexample: a 503 response with a JSON body on a GET through the
blocking dispatcher is retried by the adapter (status forcelist) and, with
`max_retries = 3`, the call makes 4 attempts and fails with a
`ConnectionError`, not one attempt with an `APIError`. -/
theorem C3_sync_forcelist_cex :
    (syncMakeRequest 3 1 .get (fun _ => NetOutcome.resp 503 (errBody ("Service Unavailable")))).1 = DResult.connError
    ∧ (syncMakeRequest 3 1 .get (fun _ => NetOutcome.resp 503 (errBody ("Service Unavailable")))).2.1 = 4
    ∧ (syncMakeRequest 3 1 .get (fun _ => NetOutcome.resp 503 (errBody ("Service Unavailable")))).2.1 ≠ 1 := by
  refine ⟨rfl, rfl, by decide⟩

/-- C4: extract validation succeeds exactly when the image source is valid,
any supplied field list has valid entries and at most 10 of them, exactly
one of fields and advanced schema is truthy (non-empty, not merely set), and
a truthy advanced schema has type object with truthy properties. -/
theorem C4_extract_validation_iff (url b64 : Option String) (fields : Option (List ExtractField))
    (schema : Option JBody) (instruction : Option String) :
    (mkImageExtractRequest url b64 fields schema instruction).isOk = true ↔
      (checkImageSource url b64 = .ok ()
       ∧ (∀ l, fields = some l → (validateFields l).isOk = true ∧ l.length ≤ 10)
       ∧ (optFieldsTruthy fields != optJObjTruthy schema) = true
       ∧ (optJObjTruthy schema = true →
            jIsStrEq (jLookup (schema.getD []) ("type")) ("object") = true
            ∧ optJTruthy (jLookup (schema.getD []) ("properties")) = true)) := by
  unfold mkImageExtractRequest
  cases hcis : checkImageSource url b64 with
  | error e =>
    constructor
    · intro h
      simp [Except.isOk, Except.toBool] at h
    · rintro ⟨h1, -, -⟩
      cases h1
  | ok u =>
    cases u
    cases hfs : checkFieldsStage fields with
    | error e2 =>
      constructor
      · intro h
        simp [Except.isOk, Except.toBool] at h
      · rintro ⟨-, hall, -⟩
        have hok : checkFieldsStage fields = .ok () := (checkFieldsStage_ok_iff fields).mpr hall
        rw [hfs] at hok
        cases hok
    | ok u2 =>
      cases u2
      dsimp only
      rw [exceptUnit_isOk_iff, checkSchemaOrFields_ok_iff]
      have hall := (checkFieldsStage_ok_iff fields).mp hfs
      constructor
      · intro h
        exact ⟨rfl, hall, h.1, h.2⟩
      · rintro ⟨-, -, h1, h2⟩
        exact ⟨h1, h2⟩

/-- C4 counterexample: an empty field list is set (and satisfies the claimed
field-list description) with no advanced schema and a valid image source,
yet validation fails, because the code tests truthiness and an empty list is
falsy. -/
theorem C4_empty_fields_cex :
    (some ([] : List ExtractField)).isSome = true
    ∧ (validateFields ([] : List ExtractField)).isOk = true
    ∧ ([] : List ExtractField).length ≤ 10
    ∧ (none : Option JBody).isSome = false
    ∧ checkImageSource (some ("https://img.com/a.png")) none = .ok ()
    ∧ (mkImageExtractRequest (some ("https://img.com/a.png")) none (some []) none none).isOk = false := by
  refine ⟨rfl, rfl, by decide, rfl, rfl, rfl⟩

/-- C5: the blocking facade extract operation never dispatches: it drops its
output schema argument and supplies neither fields nor advanced schema to
validation, so every call fails; the non-blocking facade accepts and
dispatches the schema-only scenario and rejects the both-set scenario before
any network call. -/
theorem C5_sync_extract_never_dispatches :
    (∀ (url b64 : Option String) (outputSchema : Option JBody) (instruction : Option String),
        (syncExtractImage url b64 outputSchema instruction).isOk = false)
    ∧ syncExtractImage (some scenarioUrl) none (some scenarioSchema) none = .error VErr.noFieldsOrSchema
    ∧ asyncExtractImage (some scenarioUrl) none none (some scenarioSchema) none = .ok ()
    ∧ asyncExtractDispatches (some scenarioUrl) none none (some scenarioSchema) none = true
    ∧ asyncExtractImage (some scenarioUrl) none (some scenarioFields) (some scenarioSchema) none = .error VErr.bothFieldsAndSchema
    ∧ asyncExtractDispatches (some scenarioUrl) none (some scenarioFields) (some scenarioSchema) none = false := by
  refine ⟨?_, rfl, rfl, rfl, rfl, rfl⟩
  intro url b64 os instruction
  unfold syncExtractImage mkImageExtractRequest
  cases hcis : checkImageSource url b64 with
  | error e => rfl
  | ok u => cases u; rfl

/-- C6: the compare request enforces no image-source invariant: construction
succeeds for every combination of the four optional references, storing them
as given. -/
theorem C6_compare_construction_unguarded (i1u i1b i2u i2b instruction : Option String) :
    mkImageCompareRequest i1u i1b i2u i2b instruction =
      .ok { image1_url := i1u, image1_base64 := i1b, image2_url := i2u,
            image2_base64 := i2b, instruction := instruction } := rfl

/-- C6 counterexample: a compare request with no image source at all is
accepted, although the image-source invariant (as checked for the other
request kinds) rejects an absent source. -/
theorem C6_compare_no_source_cex :
    (mkImageCompareRequest none none none none (some defaultCompareInstruction)).isOk = true
    ∧ checkImageSource none none = .error VErr.noSource
    ∧ checkImageSource none none ≠ .ok () := by
  refine ⟨rfl, rfl, by simp [checkImageSource, optStrTruthy]⟩

/-- C7: for describe, classify and ask requests, validation succeeds exactly
when one source is truthy and well formed (URL with scheme http or https and
non-empty host part, or base64 decoding, after stripping an optional data
URL header, to at least one byte) and the other is absent or empty; zero or
two truthy sources fail. -/
theorem C7_single_source_validation (url b64 instruction : Option String) (generateTags : Bool)
    (classes : Option (List String)) (classDescriptions : Option (List (String × String)))
    (multiLabel : Bool) (question : String) :
    (mkImageDescribeRequest url b64 instruction generateTags = .ok ()
     ∧ mkImageClassifyRequest url b64 classes classDescriptions instruction multiLabel = .ok ()
     ∧ mkImageAskRequest url b64 question = .ok ())
    ↔ ((optStrTruthy url = true ∧ optStrTruthy b64 = false ∧ urlWellFormed (url.getD ("")) = true)
       ∨ (optStrTruthy url = false ∧ optStrTruthy b64 = true ∧ base64WellFormed (b64.getD ("")) = true)) := by
  unfold mkImageDescribeRequest mkImageClassifyRequest mkImageAskRequest
  constructor
  · rintro ⟨h, -, -⟩
    exact (checkImageSource_ok_iff url b64).mp h
  · intro h
    have hok := (checkImageSource_ok_iff url b64).mpr h
    exact ⟨hok, hok, hok⟩

/-- C8: feedback validation succeeds exactly when the rating lies in the
inclusive range 1 to 5 and the request id parses as a UUID, and the
constructed value carries exactly the given fields. -/
theorem C8_feedback_validation (rid : String) (rating : Int) (ft : Option String) :
    ((mkFeedbackRequest rid rating ft).isOk = true
        ↔ (1 ≤ rating ∧ rating ≤ 5 ∧ pyUUIDvalid rid = true))
    ∧ (mkFeedbackRequest rid rating ft =
          .ok { request_id := rid, rating := rating, feedback_text := ft }
        ↔ (1 ≤ rating ∧ rating ≤ 5 ∧ pyUUIDvalid rid = true)) := by
  unfold mkFeedbackRequest
  by_cases hr : rating < 1 ∨ 5 < rating
  · rw [if_pos hr]
    have hfalse : ¬(1 ≤ rating ∧ rating ≤ 5 ∧ pyUUIDvalid rid = true) := by
      rintro ⟨h1, h2, -⟩
      omega
    constructor
    · exact ⟨fun h => absurd h (by simp [Except.isOk, Except.toBool]), fun h => absurd h hfalse⟩
    · exact ⟨fun h => absurd h (by simp), fun h => absurd h hfalse⟩
  · have h1 : 1 ≤ rating := by omega
    have h2 : rating ≤ 5 := by omega
    rw [if_neg hr]
    cases hq : pyUUIDvalid rid
    · rw [if_pos (by simp [hq])]
      have hfalse : ¬(1 ≤ rating ∧ rating ≤ 5 ∧ false = true) := by
        rintro ⟨-, -, h3⟩
        cases h3
      constructor
      · exact ⟨fun h => absurd h (by simp [Except.isOk, Except.toBool]), fun h => absurd h hfalse⟩
      · exact ⟨fun h => absurd h (by simp), fun h => absurd h hfalse⟩
    · rw [if_neg (by simp [hq])]
      constructor
      · exact ⟨fun _ => ⟨h1, h2, rfl⟩, fun _ => by simp [Except.isOk, Except.toBool]⟩
      · exact ⟨fun _ => ⟨h1, h2, rfl⟩, fun _ => rfl⟩

/-- C9: closing a client neither flags the instance nor gates later calls:
an operation dispatched after close behaves exactly as before close, and no
dispatch outcome is ever a closed-resource error (the SDK defines no such
check; the taxonomy entry is unreachable). -/
theorem C9_close_not_gated (c : SyncClient) (m : Method) (env : Nat → NetOutcome) :
    clientRequest (closeClient c) m env = clientRequest c m env
    ∧ (clientRequest c m env).1 ≠ DResult.closedResource := by
  refine ⟨rfl, ?_⟩
  have e : (clientRequest c m env).1 =
      syncClassify (urllib3Go c.retryDelay m env c.maxRetries 0).1 := rfl
  rw [e]
  cases (urllib3Go c.retryDelay m env c.maxRetries 0).1 with
  | resp st body => by_cases h4 : 400 ≤ st <;> simp [syncClassify, h4]
  | maxRetryFail => simp [syncClassify]

/-- C9 counterexample: after close, a credits call on the blocking client
still dispatches and succeeds against a healthy endpoint instead of failing
with a closed-resource error. -/
theorem C9_post_close_cex :
    (clientRequest (closeClient { maxRetries := 3, retryDelay := 1, sessionClosed := false })
        .get (fun _ => NetOutcome.resp 200 creditsOkBody)).1 = DResult.success creditsOkBody
    ∧ DResult.success creditsOkBody ≠ DResult.closedResource := by
  refine ⟨rfl, by simp⟩

/-- C10: the blocking client imports `FeedbackCreate` from the image model
module, but that module defines `FeedbackRequest` and no `FeedbackCreate`,
so the import list does not resolve and the blocking client module cannot be
loaded. -/
theorem C10_feedback_create_missing :
    clientImportOk = false
    ∧ imageModuleNames.contains ("FeedbackCreate") = false
    ∧ imageModuleNames.contains ("FeedbackRequest") = true := by
  refine ⟨by decide, by decide, by decide⟩

end Viscribe
